import Mathlib

/-!
Shallow embedding of the domino-tasks backend (src/backend): the tag store
and association table (models.py), the CRUD layer (crud.py), the request
schemas (schemas.py), and the two external-facing endpoints of main.py
(`authenticate_google` and `get_tasks`) together with the tag endpoints.

main.py defines the whole application twice; the second `app = FastAPI(...)`
rebinds `app`, so the routes that are actually served are the ones of the
second half (lines 192-377), where `get_tasks` extracts the bearer token by
hand from the `authorization` header. The embedding follows that second,
effective definition.

Outbound HTTP is modelled by passing the provider's outcome (a response
with status code, parsed JSON body and raw text, or a network-level
`httpx.RequestError`) as an explicit argument; datetime values are kept as
opaque strings.
-/

namespace DominoTasks

/-- A row of the `tags` table (`models.Tag`): integer primary key `id`,
unique `name`. -/
structure Tag where
  id : Nat
  name : String
deriving Repr, DecidableEq

/-- The persistent store: the `tags` table in store (insertion) order, and
the `task_tags` association table (`models.task_tag_association`) as rows
`(task_id, tag_id)` with composite identity. -/
structure Store where
  tags : List Tag
  assoc : List (String × Nat)
deriving Repr, DecidableEq

/-- `crud.get_tag_by_name`: `db.query(Tag).filter(Tag.name == name).first()` —
the first tag in store order whose name matches, if any. -/
def get_tag_by_name (db : Store) (name : String) : Option Tag :=
  db.tags.find? (fun t => t.name == name)

/-- `crud.get_tags`: `db.query(Tag).offset(skip).limit(limit).all()` —
offset/limit pagination in store order (non-negative `skip`/`limit`, as the
spec requires; negative values are backend-specific SQL and out of scope). -/
def get_tags (db : Store) (skip : Nat) (limit : Nat) : List Tag :=
  (db.tags.drop skip).take limit

/-- The id the store auto-assigns to the next inserted tag row (SQLite
rowid behaviour: one more than the largest existing id, 1 on an empty
table). -/
def nextId (db : Store) : Nat :=
  (db.tags.map Tag.id).foldr max 0 + 1

/-- `crud.create_tag`: insert a new row with an auto-assigned id, commit,
and return the persisted entity together with the updated store. -/
def create_tag (db : Store) (name : String) : Tag × Store :=
  let t : Tag := ⟨nextId db, name⟩
  (t, { db with tags := db.tags ++ [t] })

/-- `crud.get_tags_for_task`:
`db.query(Tag).join(task_tag_association).filter(task_tag_association.c.task_id == task_id).all()` —
the join emits one output row per pair of a tag row and an association row
with `tag_id = tag.id` and the given `task_id`. -/
def get_tags_for_task (db : Store) (task_id : String) : List Tag :=
  db.tags.flatMap (fun t =>
    (db.assoc.filter (fun r => r.1 == task_id && r.2 == t.id)).map (fun _ => t))

/-- `schemas.GoogleTask`: required `id`, `title`, `status`; optional `due`
(datetime, kept as an opaque string here) and `notes`. -/
structure GoogleTask where
  id : String
  title : String
  status : String
  due : Option String := none
  notes : Option String := none
deriving Repr, DecidableEq

/-- `schemas.Task`: the `GoogleTask` fields plus the locally attached
`tags`. -/
structure Task where
  id : String
  title : String
  status : String
  due : Option String := none
  notes : Option String := none
  tags : List Tag := []
deriving Repr, DecidableEq

/-- A raw task item as found in the provider's `items` array: each
recognized field possibly absent, plus unrecognized extra fields
(key/value pairs). -/
structure RawTask where
  id : Option String := none
  title : Option String := none
  status : Option String := none
  due : Option String := none
  notes : Option String := none
  extra : List (String × String) := []
deriving Repr, DecidableEq

/-- `schemas.GoogleTask.model_validate`: pydantic validation of one raw
item — fails when a required field (`id`, `title`, `status`) is absent,
ignores unrecognized extra fields. -/
def model_validate (r : RawTask) : Option GoogleTask :=
  match r.id, r.title, r.status with
  | some i, some tl, some st => some ⟨i, tl, st, r.due, r.notes⟩
  | _, _, _ => none

/-- `schemas.UserInfo`: required `email` and `name`, optional `picture`. -/
structure UserInfo where
  email : String
  name : String
  picture : Option String := none
deriving Repr, DecidableEq

/-- A raw userinfo JSON object from the identity provider: recognized
fields possibly absent, plus unrecognized extra fields. -/
structure RawUser where
  email : Option String := none
  name : Option String := none
  picture : Option String := none
  extra : List (String × String) := []
deriving Repr, DecidableEq

/-- `schemas.UserInfo(**user_data)`: pydantic construction — fails when
`email` or `name` is absent, ignores extra fields. -/
def parseUserInfo (r : RawUser) : Option UserInfo :=
  match r.email, r.name with
  | some e, some n => some ⟨e, n, r.picture⟩
  | _, _ => none

/-- The JSON body of the provider's task-list response:
`response.json().get("items", [])` treats an absent `items` field as the
empty list. -/
structure TasksBody where
  items : Option (List RawTask) := none
deriving Repr, DecidableEq

/-- Outcome of one outbound `client.get`: either a response (status code,
parsed JSON body, raw text) or a network-level failure
(`httpx.RequestError` with its message). -/
inductive ProviderOutcome (β : Type) where
  | response (status_code : Nat) (body : β) (text : String)
  | requestError (msg : String)
deriving Repr, DecidableEq

/-- httpx `response.raise_for_status()` passes exactly the 2xx range and
raises `HTTPStatusError` otherwise. -/
def is_success (s : Nat) : Bool := 200 ≤ s && s < 300

/-- The observable result of one request: a success value, an
`HTTPException(status_code, detail)`, or an unhandled pydantic
`ValidationError` escaping the handler. -/
inductive Resp (α : Type) where
  | ok (value : α)
  | httpError (status_code : Nat) (detail : String)
  | validationError
deriving Repr, DecidableEq

/-- `authenticate_google` (POST /auth/google): forward the token to the
userinfo endpoint and map the outcome — 2xx parses into `UserInfo`
(pydantic failure escapes), 401 maps to an HTTP 401, any other raised
status to an HTTP 400 carrying the upstream text, and a network failure to
an HTTP 400 carrying the error message. -/
def authenticate_google (outcome : ProviderOutcome RawUser) : Resp UserInfo :=
  match outcome with
  | .requestError m =>
      .httpError 400 ("An error occurred while requesting user info from Google: " ++ m)
  | .response s body text =>
      if is_success s then
        match parseUserInfo body with
        | some u => .ok u
        | none => .validationError
      else if s = 401 then
        .httpError 401 "Invalid or expired Google token."
      else
        .httpError 400 ("Failed to fetch user info from Google: " ++ text)

/-- The enriched task built from a validated provider task: all fields
unchanged, `tags` set to the association lookup for its id
(`schemas.Task(**google_task.model_dump(), tags=local_tags)`). -/
def mkEnriched (db : Store) (g : GoogleTask) : Task :=
  { id := g.id, title := g.title, status := g.status, due := g.due,
    notes := g.notes, tags := get_tags_for_task db g.id }

/-- The enrichment loop of `get_tasks`: validate each item in order and
attach its tags; the first pydantic failure aborts the whole loop with
nothing returned. -/
def enrichTasks (db : Store) : List RawTask → Option (List Task)
  | [] => some []
  | r :: rs =>
      match model_validate r with
      | none => none
      | some g =>
          match enrichTasks db rs with
          | none => none
          | some ts => some (mkEnriched db g :: ts)

/-- Validation of a whole `items` array: all items in order, failing as a
whole on the first invalid item. -/
def validateAll : List RawTask → Option (List GoogleTask)
  | [] => some []
  | r :: rs =>
      match model_validate r with
      | none => none
      | some g =>
          match validateAll rs with
          | none => none
          | some gs => some (g :: gs)

/-- Python `authorization.startswith("Bearer ")`: the header's character
sequence begins with the characters of `"Bearer "` (stated on `String.data`
so that concrete instances evaluate). -/
def startswith (s pre : String) : Bool :=
  pre.data.isPrefixOf s.data

/-- `authorization.split(" ")[1]`: the token extracted from the header
(defined via Python `str.split` with an explicit separator; under the
`startswith("Bearer ")` guard index 1 always exists). -/
def bearerToken (authorization : String) : String :=
  (authorization.splitOn " ").getD 1 ""

/-- One run of GET /tasks: its HTTP result and whether the outbound call
to the task provider was made. -/
structure GetTasksRun where
  result : Resp (List Task)
  calledProvider : Bool
deriving Repr, DecidableEq

/-- `get_tasks` (GET /tasks, the effective second definition in main.py):
`authorization` is `none` when the header is missing — FastAPI rejects the
request with a 422 validation error before the handler runs, since
`Annotated[str, Header()]` declares a required header. A present header
not starting with `"Bearer "` yields HTTP 401 before any outbound call.
Otherwise the token is forwarded to the task provider (`provider` maps the
token to the call's outcome) and the outcome is mapped exactly as in
`authenticate_google`, with a 2xx body run through the enrichment loop. -/
def get_tasks (db : Store) (authorization : Option String)
    (provider : String → ProviderOutcome TasksBody) : GetTasksRun :=
  match authorization with
  | none => ⟨.httpError 422 "Field required: authorization", false⟩
  | some auth =>
      if startswith auth "Bearer " then
        match provider (bearerToken auth) with
        | .requestError m =>
            ⟨.httpError 400 ("An error occurred while requesting tasks from Google: " ++ m), true⟩
        | .response s body text =>
            if is_success s then
              match enrichTasks db (body.items.getD []) with
              | some ts => ⟨.ok ts, true⟩
              | none => ⟨.validationError, true⟩
            else if s = 401 then
              ⟨.httpError 401 "Invalid or expired Google token.", true⟩
            else
              ⟨.httpError 400 ("Failed to fetch tasks from Google: " ++ text), true⟩
      else
        ⟨.httpError 401 "Invalid authorization scheme.", false⟩

/-- `create_tag` endpoint (POST /tags/): pre-check by name, HTTP 400 on a
duplicate (store untouched), otherwise insert through `crud.create_tag`
and return the created row. -/
def create_tag_endpoint (db : Store) (name : String) : Resp Tag × Store :=
  match get_tag_by_name db name with
  | some _ => (.httpError 400 "Tag already registered", db)
  | none =>
      let p := create_tag db name
      (.ok p.1, p.2)

/-- `read_tags` endpoint (GET /tags/): delegates to `crud.get_tags`. -/
def read_tags (db : Store) (skip : Nat) (limit : Nat) : List Tag :=
  get_tags db skip limit

/-- The HTTP status code the framework sends for a handler result: 200 on
success, the `HTTPException`'s own code, 500 for an unhandled exception. -/
def Resp.status {α : Type} : Resp α → Nat
  | .ok _ => 200
  | .httpError c _ => c
  | .validationError => 500

/-- Example store of the spec's scenario: one tag `urgent` with id 1,
associated to the external task `t1`. -/
def dbEx : Store := ⟨[⟨1, "urgent"⟩], [("t1", 1)]⟩

/-- Example raw provider item of the spec's scenario. -/
def rawEx : RawTask :=
  { id := some "t1", title := some "Buy milk", status := some "needsAction" }

/-- Example raw provider item missing the required `id` field. -/
def rawBad : RawTask :=
  { title := some "Buy milk", status := some "needsAction" }

/-- Example task-list body holding exactly `rawEx`. -/
def bodyEx : TasksBody := ⟨some [rawEx]⟩

/-- Example task-list body holding exactly `rawBad`. -/
def bodyBad : TasksBody := ⟨some [rawBad]⟩

/-- Example provider answering 200 with `bodyEx`. -/
def provOk : String → ProviderOutcome TasksBody :=
  fun _ => .response 200 bodyEx ""

/-- Example provider answering 200 with `bodyBad`. -/
def provBad : String → ProviderOutcome TasksBody :=
  fun _ => .response 200 bodyBad ""

/-- Example provider answering 401. -/
def prov401 : String → ProviderOutcome TasksBody :=
  fun _ => .response 401 ⟨none⟩ "Unauthorized"

/-- Example provider answering 500. -/
def prov500 : String → ProviderOutcome TasksBody :=
  fun _ => .response 500 ⟨none⟩ "Internal Server Error"

/-- Example provider failing at the network level. -/
def provBoom : String → ProviderOutcome TasksBody :=
  fun _ => .requestError "boom"

/-- The enriched task of the spec's scenario. -/
def taskEx : Task :=
  { id := "t1", title := "Buy milk", status := "needsAction",
    tags := [⟨1, "urgent"⟩] }

/-- Example raw userinfo body with every field absent. -/
def rawUserEx : RawUser := {}

/-! Helper lemmas about the store operations. -/

theorem mem_get_tags_for_task (db : Store) (task_id : String) (t : Tag) :
    t ∈ get_tags_for_task db task_id ↔
      t ∈ db.tags ∧ (task_id, t.id) ∈ db.assoc := by
  simp only [get_tags_for_task, List.mem_flatMap, List.mem_map, List.mem_filter]
  constructor
  · rintro ⟨u, hu, r, ⟨hr, hq⟩, he⟩
    subst he
    rw [Bool.and_eq_true, beq_iff_eq, beq_iff_eq] at hq
    refine ⟨hu, ?_⟩
    rw [← hq.1, ← hq.2]
    exact hr
  · rintro ⟨ht, ha⟩
    exact ⟨t, ht, (task_id, t.id), ⟨ha, by simp⟩, rfl⟩

theorem get_tag_by_name_append (db : Store) (n : String) (t : Tag)
    (h : get_tag_by_name db n = none) (hn : t.name = n) :
    get_tag_by_name { db with tags := db.tags ++ [t] } n = some t := by
  unfold get_tag_by_name at h ⊢
  rw [List.find?_append, h]
  simp [List.find?_cons, hn]

/-- C7: for every pair `(skip, limit)` of non-negative pagination
parameters, `list(skip, limit)` returns at most `limit` tags, namely the
tags in store order with the first `skip` skipped; `list(0, 0)` returns
the empty sequence. -/
theorem claim_C7_pagination (db : Store) (skip limit : Nat) :
    (get_tags db skip limit).length ≤ limit ∧
    get_tags db skip limit = (db.tags.drop skip).take limit ∧
    get_tags db 0 0 = [] := by
  refine ⟨?_, rfl, rfl⟩
  show ((db.tags.drop skip).take limit).length ≤ limit
  rw [List.length_take]
  exact min_le_left _ _

/-- C8: `tagsForTask` returns exactly the full Tag records linked to the
given `task_id` through the association table, and with zero associated
rows it returns the empty sequence rather than an error; as a function of
the store it is a pure read. -/
theorem claim_C8_tags_for_task (db : Store) (task_id : String) :
    (∀ t : Tag, t ∈ get_tags_for_task db task_id ↔
      t ∈ db.tags ∧ (task_id, t.id) ∈ db.assoc) ∧
    ((∀ r ∈ db.assoc, r.1 ≠ task_id) → get_tags_for_task db task_id = []) := by
  refine ⟨mem_get_tags_for_task db task_id, fun h => ?_⟩
  rw [List.eq_nil_iff_forall_not_mem]
  intro t ht
  rcases (mem_get_tags_for_task db task_id t).mp ht with ⟨-, ha⟩
  exact h _ ha rfl

/-- C8 witness: on the scenario store, the task `t9` has no association
rows and the lookup returns the empty sequence. -/
theorem claim_C8_witness :
    (∀ t : Tag, t ∈ get_tags_for_task dbEx "t9" ↔
      t ∈ dbEx.tags ∧ ("t9", t.id) ∈ dbEx.assoc) ∧
    get_tags_for_task dbEx "t9" = [] :=
  ⟨(claim_C8_tags_for_task dbEx "t9").1,
   (claim_C8_tags_for_task dbEx "t9").2 (by decide)⟩

/-- C3: POST /tags/ with a name already present answers HTTP 400
("Tag already registered") detected through the `get_tag_by_name`
pre-check, and the store is unchanged; with a name not present, a new Tag
row is appended to the store and returned. -/
theorem claim_C3_create_conflict (db : Store) (n : String) :
    (∀ t, get_tag_by_name db n = some t →
      create_tag_endpoint db n = (.httpError 400 "Tag already registered", db)) ∧
    (get_tag_by_name db n = none →
      ∃ t, create_tag_endpoint db n = (.ok t, { db with tags := db.tags ++ [t] }) ∧
        t.name = n) := by
  constructor
  · intro t ht
    simp [create_tag_endpoint, ht]
  · intro h
    exact ⟨⟨nextId db, n⟩, by simp [create_tag_endpoint, h, create_tag], rfl⟩

/-- C3 witness: creating `urgent` against a store that already holds it is
rejected with HTTP 400 and no second row; creating it against the empty
store appends exactly one row. -/
theorem claim_C3_witness :
    create_tag_endpoint ⟨[⟨1, "urgent"⟩], []⟩ "urgent" =
      (.httpError 400 "Tag already registered", ⟨[⟨1, "urgent"⟩], []⟩) ∧
    (∃ t, create_tag_endpoint ⟨[], []⟩ "urgent" = (.ok t, ⟨[t], []⟩) ∧
      t.name = "urgent") :=
  ⟨(claim_C3_create_conflict ⟨[⟨1, "urgent"⟩], []⟩ "urgent").1 ⟨1, "urgent"⟩ rfl,
   (claim_C3_create_conflict ⟨[], []⟩ "urgent").2 rfl⟩

/-- C9: starting from a store without the name `n`, `create(n)` succeeds
and `getByName(n)` afterwards returns the created tag; a second
`create(n)` fails with the conflict response, leaves the store unchanged,
and `getByName(n)` still returns the same tag. -/
theorem claim_C9_create_lookup_roundtrip (db : Store) (n : String)
    (h : get_tag_by_name db n = none) :
    ∃ t db2, create_tag_endpoint db n = (.ok t, db2) ∧ t.name = n ∧
      get_tag_by_name db2 n = some t ∧
      create_tag_endpoint db2 n = (.httpError 400 "Tag already registered", db2) := by
  refine ⟨⟨nextId db, n⟩, { db with tags := db.tags ++ [⟨nextId db, n⟩] },
    ?_, rfl, ?_, ?_⟩
  · simp [create_tag_endpoint, h, create_tag]
  · exact get_tag_by_name_append db n _ h rfl
  · have hf := get_tag_by_name_append db n ⟨nextId db, n⟩ h rfl
    simp [create_tag_endpoint, hf]

/-- C9 witness: the round trip on the empty store with the name
`urgent`. -/
theorem claim_C9_witness :
    ∃ t db2, create_tag_endpoint ⟨[], []⟩ "urgent" = (.ok t, db2) ∧
      t.name = "urgent" ∧ get_tag_by_name db2 "urgent" = some t ∧
      create_tag_endpoint db2 "urgent" =
        (.httpError 400 "Tag already registered", db2) :=
  claim_C9_create_lookup_roundtrip ⟨[], []⟩ "urgent" rfl

theorem filter_pair_length_le_one (a : String) (b : Nat)
    (l : List (String × Nat)) :
    l.Nodup → (l.filter (fun r => r.1 == a && r.2 == b)).length ≤ 1 := by
  induction l with
  | nil => intro _; simp
  | cons r l ih =>
    intro h
    rcases List.nodup_cons.mp h with ⟨hr, hl⟩
    rw [List.filter_cons]
    by_cases hq : (r.1 == a && r.2 == b) = true
    · have hq2 := hq
      rw [Bool.and_eq_true, beq_iff_eq, beq_iff_eq] at hq2
      have hrab : r = (a, b) := by rw [← hq2.1, ← hq2.2]
      have hnil : l.filter (fun r2 => r2.1 == a && r2.2 == b) = [] := by
        rw [List.filter_eq_nil_iff]
        intro x hx hqx
        rw [Bool.and_eq_true, beq_iff_eq, beq_iff_eq] at hqx
        have hxab : x = (a, b) := by rw [← hqx.1, ← hqx.2]
        apply hr
        rw [hrab, ← hxab]
        exact hx
      rw [if_pos hq, hnil]
      simp
    · rw [if_neg hq]
      exact ih hl

theorem flatMap_singleton_sublist {α : Type} (l : List α) (f : α → List α) :
    (∀ a ∈ l, f a = [] ∨ f a = [a]) → List.Sublist (l.flatMap f) l := by
  induction l with
  | nil => intro _; simp
  | cons a l ih =>
    intro h
    rw [List.flatMap_cons]
    have hl := ih (fun x hx => h x (List.mem_cons_of_mem a hx))
    rcases h a (List.mem_cons_self a l) with h1 | h1 <;> rw [h1]
    · exact hl.cons a
    · exact hl.cons₂ a

/-- C10: under the table constraints — distinct tag primary keys and the
composite primary key of the association table — `tagsForTask` yields each
Tag at most once (its result is duplicate-free); and no store operation
inserts association rows: `create` leaves the association table unchanged
both at the CRUD level and at the endpoint level. -/
theorem claim_C10_no_duplicate_tags (db : Store) (task_id : String)
    (hids : (db.tags.map Tag.id).Nodup) (hassoc : db.assoc.Nodup) :
    (get_tags_for_task db task_id).Nodup ∧
    ∀ n, (create_tag db n).2.assoc = db.assoc ∧
      (create_tag_endpoint db n).2.assoc = db.assoc := by
  constructor
  · have htags : db.tags.Nodup := hids.of_map
    refine htags.sublist (flatMap_singleton_sublist db.tags _ ?_)
    intro t ht
    have hlen := filter_pair_length_le_one task_id t.id db.assoc hassoc
    cases hfl : db.assoc.filter (fun r => r.1 == task_id && r.2 == t.id) with
    | nil => left; rfl
    | cons r tl =>
      cases tl with
      | nil => right; rfl
      | cons r2 tl2 =>
        rw [hfl] at hlen
        simp at hlen
  · intro n
    refine ⟨rfl, ?_⟩
    cases h : get_tag_by_name db n <;> simp [create_tag_endpoint, h, create_tag]

/-- C10 witness: the scenario store satisfies both table constraints and
the lookup for `t1` is duplicate-free. -/
theorem claim_C10_witness :
    ((dbEx.tags.map Tag.id).Nodup ∧ dbEx.assoc.Nodup) ∧
    ((get_tags_for_task dbEx "t1").Nodup ∧
      ∀ n, (create_tag dbEx n).2.assoc = dbEx.assoc ∧
        (create_tag_endpoint dbEx n).2.assoc = dbEx.assoc) :=
  ⟨⟨by decide, by decide⟩,
   claim_C10_no_duplicate_tags dbEx "t1" (by decide) (by decide)⟩

/-! Helper lemmas about the enrichment loop. -/

theorem is_success_401 : is_success 401 = false := rfl

theorem enrichTasks_eq_validateAll (db : Store) (l : List RawTask) :
    enrichTasks db l = (validateAll l).map (List.map (mkEnriched db)) := by
  induction l with
  | nil => rfl
  | cons r rs ih =>
    simp only [enrichTasks, validateAll]
    cases model_validate r with
    | none => rfl
    | some g =>
      rw [ih]
      cases validateAll rs with
      | none => rfl
      | some gs => rfl

theorem validateAll_getElem? (l : List RawTask) (gs : List GoogleTask)
    (h : validateAll l = some gs) (i : Nat) :
    (l[i]?).bind model_validate = gs[i]? := by
  induction l generalizing gs i with
  | nil =>
    simp only [validateAll] at h
    injection h with h2
    subst h2
    simp
  | cons r rs ih =>
    simp only [validateAll] at h
    cases hv : model_validate r with
    | none => rw [hv] at h; simp at h
    | some g =>
      rw [hv] at h
      cases hva : validateAll rs with
      | none => rw [hva] at h; simp at h
      | some gs2 =>
        rw [hva] at h
        simp only [Option.some.injEq] at h
        subst h
        cases i with
        | zero => simp [hv]
        | succ j => simpa using ih gs2 hva j

theorem enrichTasks_none_of_mem (db : Store) (l : List RawTask) (r : RawTask)
    (hv : model_validate r = none) : r ∈ l → enrichTasks db l = none := by
  induction l with
  | nil => intro h; cases h
  | cons a l ih =>
    intro h
    rcases List.mem_cons.mp h with rfl | h2
    · simp only [enrichTasks, hv]
    · simp only [enrichTasks]
      cases model_validate a with
      | none => rfl
      | some g => rw [ih h2]

theorem model_validate_none_of_missing (r : RawTask)
    (h : r.id = none ∨ r.title = none ∨ r.status = none) :
    model_validate r = none := by
  obtain ⟨oid, oti, ost, odu, ono, oex⟩ := r
  cases oid <;> cases oti <;> cases ost <;> simp_all [model_validate]

theorem mem_of_getElem_some {α : Type} (l : List α) (i : Nat) (a : α)
    (h : l[i]? = some a) : a ∈ l := by
  induction l generalizing i with
  | nil => simp at h
  | cons x l ih =>
    cases i with
    | zero =>
      rw [List.getElem?_cons_zero] at h
      injection h with h2
      subst h2
      exact List.mem_cons_self x l
    | succ j =>
      rw [List.getElem?_cons_succ] at h
      exact List.mem_cons_of_mem x (ih j h)

/-- C1: when GET /tasks answers successfully, the enriched sequence
preserves the provider's order — the i-th enriched task is built from the
i-th element of the provider's `items`, its fields unchanged and its
`tags` set to the association lookup for its id. -/
theorem claim_C1_order_preserved (db : Store) (auth : String)
    (provider : String → ProviderOutcome TasksBody) (s : Nat)
    (body : TasksBody) (text : String) (ts : List Task)
    (hb : startswith auth "Bearer " = true)
    (hp : provider (bearerToken auth) = .response s body text)
    (hok : (get_tasks db (some auth) provider).result = .ok ts) :
    ∃ gs : List GoogleTask,
      (∀ i : Nat, ((body.items.getD [])[i]?).bind model_validate = gs[i]?) ∧
      ts = gs.map (fun g =>
        { id := g.id, title := g.title, status := g.status, due := g.due,
          notes := g.notes, tags := get_tags_for_task db g.id }) := by
  cases hs : is_success s with
  | false =>
    exfalso
    by_cases h4 : s = 401
    · subst h4
      simp [get_tasks, hb, hp, hs] at hok
    · simp [get_tasks, hb, hp, hs, h4] at hok
  | true =>
    cases he : enrichTasks db (body.items.getD []) with
    | none => exfalso; simp [get_tasks, hb, hp, hs, he] at hok
    | some ts2 =>
      simp [get_tasks, hb, hp, hs, he] at hok
      subst hok
      have hev := enrichTasks_eq_validateAll db (body.items.getD [])
      rw [he] at hev
      cases hva : validateAll (body.items.getD []) with
      | none => rw [hva] at hev; simp at hev
      | some gs =>
        rw [hva] at hev
        simp at hev
        exact ⟨gs, fun i => validateAll_getElem? _ gs hva i, hev⟩

/-- C1 witness: the spec's scenario — provider returns `t1`, the store
associates tag `urgent`, and the enriched response is `t1` with that tag. -/
theorem claim_C1_witness :
    ∃ gs : List GoogleTask,
      (∀ i : Nat, ((bodyEx.items.getD [])[i]?).bind model_validate = gs[i]?) ∧
      [taskEx] = gs.map (fun g =>
        { id := g.id, title := g.title, status := g.status, due := g.due,
          notes := g.notes, tags := get_tags_for_task dbEx g.id }) :=
  claim_C1_order_preserved dbEx "Bearer tok" provOk 200 bodyEx "" [taskEx]
    (by decide) rfl rfl

/-- C2: when the provider call of GET /tasks fails — an error status or a
network failure — the failure is propagated as an HTTP error (400 or 401)
and no enriched tasks are returned. -/
theorem claim_C2_fail_fast (db : Store) (auth : String)
    (provider : String → ProviderOutcome TasksBody)
    (hb : startswith auth "Bearer " = true)
    (hfail : (∃ m, provider (bearerToken auth) = .requestError m) ∨
      ∃ s body text, provider (bearerToken auth) = .response s body text ∧
        is_success s = false) :
    ∃ c d, (get_tasks db (some auth) provider).result = .httpError c d ∧
      (c = 400 ∨ c = 401) := by
  rcases hfail with ⟨m, hm⟩ | ⟨s, body, text, hp, hs⟩
  · exact ⟨400, "An error occurred while requesting tasks from Google: " ++ m,
      by simp [get_tasks, hb, hm], Or.inl rfl⟩
  · by_cases h4 : s = 401
    · subst h4
      exact ⟨401, "Invalid or expired Google token.",
        by simp [get_tasks, hb, hp, hs], Or.inr rfl⟩
    · exact ⟨400, "Failed to fetch tasks from Google: " ++ text,
        by simp [get_tasks, hb, hp, hs, h4], Or.inl rfl⟩

/-- C2 witness: a provider 500 yields an HTTP 400 response and no task
list. -/
theorem claim_C2_witness :
    ∃ c d, (get_tasks dbEx (some "Bearer tok") prov500).result =
      .httpError c d ∧ (c = 400 ∨ c = 401) :=
  claim_C2_fail_fast dbEx "Bearer tok" prov500 (by decide)
    (Or.inr ⟨500, ⟨none⟩, "Internal Server Error", rfl, rfl⟩)

/-- C4: for both external calls — identity verification and task fetch —
a provider 401 maps to an HTTP 401 unauthorized, any other 4xx/5xx status
maps to an HTTP 400 carrying the upstream body, and a network-level
failure maps to an HTTP 400; every such outcome becomes an HTTPException,
no raw transport exception escapes. -/
theorem claim_C4_error_mapping (db : Store) (auth : String) (s : Nat)
    (ubody : RawUser) (tbody : TasksBody) (utext m text1 text2 : String)
    (p1 p2 p3 : String → ProviderOutcome TasksBody)
    (hb : startswith auth "Bearer " = true)
    (h4 : 400 ≤ s) (h6 : s < 600) (hne : s ≠ 401)
    (hp1 : p1 (bearerToken auth) = .response 401 tbody text1)
    (hp2 : p2 (bearerToken auth) = .response s tbody text2)
    (hp3 : p3 (bearerToken auth) = .requestError m) :
    authenticate_google (.response 401 ubody utext) =
      .httpError 401 "Invalid or expired Google token." ∧
    authenticate_google (.response s ubody utext) =
      .httpError 400 ("Failed to fetch user info from Google: " ++ utext) ∧
    authenticate_google (.requestError m) =
      .httpError 400 ("An error occurred while requesting user info from Google: " ++ m) ∧
    (get_tasks db (some auth) p1).result =
      .httpError 401 "Invalid or expired Google token." ∧
    (get_tasks db (some auth) p2).result =
      .httpError 400 ("Failed to fetch tasks from Google: " ++ text2) ∧
    (get_tasks db (some auth) p3).result =
      .httpError 400 ("An error occurred while requesting tasks from Google: " ++ m) := by
  have h3 : ¬ s < 300 := by omega
  have hsf : is_success s = false := by simp [is_success, h3]
  refine ⟨rfl, ?_, rfl, ?_, ?_, ?_⟩
  · simp [authenticate_google, hsf, hne]
  · simp [get_tasks, hb, hp1, is_success_401]
  · simp [get_tasks, hb, hp2, hsf, hne]
  · simp [get_tasks, hb, hp3]

/-- C4 witness: concrete runs at provider statuses 401 and 500 and at a
network failure, for both endpoints. -/
theorem claim_C4_witness :
    authenticate_google (.response 401 rawUserEx "unauth") =
      .httpError 401 "Invalid or expired Google token." ∧
    authenticate_google (.response 500 rawUserEx "unauth") =
      .httpError 400 ("Failed to fetch user info from Google: " ++ "unauth") ∧
    authenticate_google (.requestError "boom") =
      .httpError 400 ("An error occurred while requesting user info from Google: " ++ "boom") ∧
    (get_tasks dbEx (some "Bearer tok") prov401).result =
      .httpError 401 "Invalid or expired Google token." ∧
    (get_tasks dbEx (some "Bearer tok") prov500).result =
      .httpError 400 ("Failed to fetch tasks from Google: " ++ "Internal Server Error") ∧
    (get_tasks dbEx (some "Bearer tok") provBoom).result =
      .httpError 400 ("An error occurred while requesting tasks from Google: " ++ "boom") :=
  claim_C4_error_mapping dbEx "Bearer tok" 500 rawUserEx ⟨none⟩ "unauth" "boom"
    "Unauthorized" "Internal Server Error" prov401 prov500 provBoom
    (by decide) (by decide) (by decide) (by decide) rfl rfl rfl

/-- C5: a provider task list containing an item lacking a required field
(`id`, `title` or `status`) fails the whole GET /tasks request with a
validation error and no partial results; validation ignores unrecognized
extra fields, and an item with all required fields present is accepted. -/
theorem claim_C5_item_validation (db : Store) (auth : String)
    (provider : String → ProviderOutcome TasksBody) (s : Nat)
    (body : TasksBody) (text : String) (i : Nat) (r : RawTask)
    (hb : startswith auth "Bearer " = true)
    (hp : provider (bearerToken auth) = .response s body text)
    (hs : is_success s = true)
    (hi : (body.items.getD [])[i]? = some r)
    (hbad : r.id = none ∨ r.title = none ∨ r.status = none) :
    (get_tasks db (some auth) provider).result = Resp.validationError ∧
    (∀ r2 : RawTask, model_validate r2 = model_validate
      { id := r2.id, title := r2.title, status := r2.status, due := r2.due,
        notes := r2.notes, extra := [] }) ∧
    ∀ (i2 t2 st2 : String) (d2 n2 : Option String)
      (e2 : List (String × String)),
      model_validate ⟨some i2, some t2, some st2, d2, n2, e2⟩ =
        some ⟨i2, t2, st2, d2, n2⟩ := by
  refine ⟨?_, ?_, ?_⟩
  · have hne : enrichTasks db (body.items.getD []) = none :=
      enrichTasks_none_of_mem db _ r (model_validate_none_of_missing r hbad)
        (mem_of_getElem_some _ i r hi)
    simp [get_tasks, hb, hp, hs, hne]
  · intro r2
    obtain ⟨oid, oti, ost, odu, ono, oex⟩ := r2
    cases oid <;> cases oti <;> cases ost <;> rfl
  · intro i2 t2 st2 d2 n2 e2
    rfl

/-- C5 witness: a provider item without `id` makes the whole request fail
with a validation error. -/
theorem claim_C5_witness :
    (get_tasks dbEx (some "Bearer tok") provBad).result =
      Resp.validationError ∧
    (∀ r2 : RawTask, model_validate r2 = model_validate
      { id := r2.id, title := r2.title, status := r2.status, due := r2.due,
        notes := r2.notes, extra := [] }) ∧
    ∀ (i2 t2 st2 : String) (d2 n2 : Option String)
      (e2 : List (String × String)),
      model_validate ⟨some i2, some t2, some st2, d2, n2, e2⟩ =
        some ⟨i2, t2, st2, d2, n2⟩ :=
  claim_C5_item_validation dbEx "Bearer tok" provBad 200 bodyBad "" 0 rawBad
    (by decide) rfl rfl rfl (Or.inl rfl)

/-- C6 counterexample: a GET /tasks request with the Authorization header
missing is answered by the framework's request validation with status 422,
not with a 401 unauthorized response. -/
theorem claim_C6_counterexample :
    (get_tasks dbEx none provBoom).result =
      Resp.httpError 422 "Field required: authorization" ∧
    Resp.status (get_tasks dbEx none provBoom).result = 422 ∧
    Resp.status (get_tasks dbEx none provBoom).result ≠ 401 :=
  ⟨rfl, rfl, by decide⟩

/-- C6 amended: a present Authorization header that does not start with
`"Bearer "` is answered 401 before any call to the task provider; a
missing header is rejected by request validation (422), likewise before
any call to the task provider. -/
theorem claim_C6_amended_auth_guard (db : Store) (auth : Option String)
    (provider : String → ProviderOutcome TasksBody)
    (h : ∀ a, auth = some a → startswith a "Bearer " = false) :
    (get_tasks db auth provider).calledProvider = false ∧
    ((auth = none ∧ (get_tasks db auth provider).result =
        Resp.httpError 422 "Field required: authorization") ∨
      ((∃ a, auth = some a) ∧ (get_tasks db auth provider).result =
        Resp.httpError 401 "Invalid authorization scheme.")) := by
  cases auth with
  | none => exact ⟨rfl, Or.inl ⟨rfl, rfl⟩⟩
  | some a =>
    have hb := h a rfl
    refine ⟨by simp [get_tasks, hb], Or.inr ⟨⟨a, rfl⟩, by simp [get_tasks, hb]⟩⟩

/-- C6 witness: the malformed header `Token abc` is rejected 401 with no
provider call. -/
theorem claim_C6_witness :
    (get_tasks dbEx (some "Token abc") provBoom).calledProvider = false ∧
    ((some "Token abc" = none ∧
        (get_tasks dbEx (some "Token abc") provBoom).result =
          Resp.httpError 422 "Field required: authorization") ∨
      ((∃ a, some "Token abc" = some a) ∧
        (get_tasks dbEx (some "Token abc") provBoom).result =
          Resp.httpError 401 "Invalid authorization scheme.")) :=
  claim_C6_amended_auth_guard dbEx (some "Token abc") provBoom
    (fun a ha => by injection ha with h2; subst h2; decide)

end DominoTasks
